import Mathlib

/-!
Verification of the prediction request pipeline of the `college_ml`
repository (app/main.py, app/model.py, app/visualize.py): feature-vector
assembly with one-hot encoding of the project type, invocation of the
three pre-trained predictors, the confidence fallback, and the chart
generation side effects.

Numeric form fields (Python float/int) are embedded as rationals; the
claims under verification concern list assembly, ordering, clamping and
control flow, none of which depend on floating-point rounding.
-/

set_option linter.unusedVariables false

namespace CollegeML

/-- Project types for one-hot encoding (`drop_first=True` drops `Bridge`
alphabetically); from app/main.py, `PROJECT_TYPES_ENCODED`. -/
def PROJECT_TYPES_ENCODED : List String :=
  ["Building", "Power Plant", "Road", "Water Infra"]

/-- Feasibility-model column order, from app/model.py `FEATURE_NAMES`
(identical to `FEATURES` in app/main.py). -/
def FEATURE_NAMES : List String :=
  ["Estimated_Cost_USD",
   "Time_Estimate_Days",
   "Resource_Allocation_Score",
   "Risk_Assessment_Score",
   "Environmental_Impact_Score",
   "Historical_Cost_Deviation_%",
   "Stakeholder_Priority_Score",
   "Scope_Complexity_Numeric",
   "Project_Type_Building",
   "Project_Type_Power Plant",
   "Project_Type_Road",
   "Project_Type_Water Infra"]

/-- Cost-model column order, from app/model.py `COST_FEATURE_NAMES`. -/
def COST_FEATURE_NAMES : List String :=
  ["Scope_Complexity_Numeric",
   "Resource_Allocation_Score",
   "Risk_Assessment_Score",
   "Environmental_Impact_Score",
   "Historical_Cost_Deviation_%",
   "Stakeholder_Priority_Score",
   "Project_Type_Building",
   "Project_Type_Power Plant",
   "Project_Type_Road",
   "Project_Type_Water Infra"]

/-- Time-model column order, from app/model.py `TIME_FEATURE_NAMES`. -/
def TIME_FEATURE_NAMES : List String :=
  ["Resource_Allocation_Score",
   "Risk_Assessment_Score",
   "Environmental_Impact_Score",
   "Historical_Cost_Deviation_%",
   "Stakeholder_Priority_Score",
   "Scope_Complexity_Numeric",
   "Project_Type_Building",
   "Project_Type_Power Plant",
   "Project_Type_Road",
   "Project_Type_Water Infra"]

/-- An Input Record for the feasibility route (`POST /predict`): the nine
form fields of `predict` in app/main.py. -/
structure InputRecord where
  Project_Type : String
  Estimated_Cost_USD : ℚ
  Time_Estimate_Days : ℚ
  Resource_Allocation_Score : ℚ
  Risk_Assessment_Score : ℚ
  Environmental_Impact_Score : ℚ
  Historical_Cost_Deviation_ : ℚ
  Stakeholder_Priority_Score : ℚ
  Scope_Complexity_Numeric : ℚ
  deriving DecidableEq, Repr

/-- An Input Record for the cost and time routes (`POST /predict-cost`,
`POST /predict-time`): the seven form fields those handlers declare. -/
structure CostTimeRecord where
  Project_Type : String
  Scope_Complexity_Numeric : ℚ
  Resource_Allocation_Score : ℚ
  Risk_Assessment_Score : ℚ
  Environmental_Impact_Score : ℚ
  Historical_Cost_Deviation_ : ℚ
  Stakeholder_Priority_Score : ℚ
  deriving DecidableEq, Repr

/-- One-hot encoding of the project type against `PROJECT_TYPES_ENCODED`;
from app/main.py line 69 (and identically lines 139, 189):
`[1 if pt == Project_Type else 0 for pt in PROJECT_TYPES_ENCODED]`. -/
def projectTypeEncoded (projectType : String) : List ℚ :=
  PROJECT_TYPES_ENCODED.map (fun pt => if pt = projectType then 1 else 0)

/-- The Encoded Feature Vector assembled by the feasibility handler
(`input_data` in `predict`, app/main.py lines 71-80). -/
def feasibilityVector (r : InputRecord) : List ℚ :=
  [r.Estimated_Cost_USD,
   r.Time_Estimate_Days,
   r.Resource_Allocation_Score,
   r.Risk_Assessment_Score,
   r.Environmental_Impact_Score,
   r.Historical_Cost_Deviation_,
   r.Stakeholder_Priority_Score,
   r.Scope_Complexity_Numeric] ++ projectTypeEncoded r.Project_Type

/-- The Encoded Feature Vector assembled by the cost handler
(`input_data` in `predict_cost_route`, app/main.py lines 142-149). -/
def costVector (r : CostTimeRecord) : List ℚ :=
  [r.Scope_Complexity_Numeric,
   r.Resource_Allocation_Score,
   r.Risk_Assessment_Score,
   r.Environmental_Impact_Score,
   r.Historical_Cost_Deviation_,
   r.Stakeholder_Priority_Score] ++ projectTypeEncoded r.Project_Type

/-- The Encoded Feature Vector assembled by the time handler
(`input_data` in `predict_time_route`, app/main.py lines 193-200). -/
def timeVector (r : CostTimeRecord) : List ℚ :=
  [r.Resource_Allocation_Score,
   r.Risk_Assessment_Score,
   r.Environmental_Impact_Score,
   r.Historical_Cost_Deviation_,
   r.Stakeholder_Priority_Score,
   r.Scope_Complexity_Numeric] ++ projectTypeEncoded r.Project_Type

end CollegeML

namespace CollegeML

/-- The concrete Input Record of the C1 scenario. -/
def roadRecord : InputRecord :=
  { Project_Type := "Road"
    Estimated_Cost_USD := 500000
    Time_Estimate_Days := 120
    Resource_Allocation_Score := 7
    Risk_Assessment_Score := 6
    Environmental_Impact_Score := 5
    Historical_Cost_Deviation_ := 10
    Stakeholder_Priority_Score := 8
    Scope_Complexity_Numeric := 2 }

/-- C1: for the Input Record {type="Road", cost=500000, time=120,
resource=7, risk=6, environmental=5, deviation=10, stakeholder=8,
complexity=2}, the feasibility Encoded Feature Vector is exactly
[500000,120,7,6,5,10,8,2,0,0,1,0]: the eight numeric fields in order
followed by the four project-type indicators with only the third (Road)
indicator set. -/
theorem road_record_feasibility_vector :
    feasibilityVector roadRecord = [500000, 120, 7, 6, 5, 10, 8, 2, 0, 0, 1, 0] := by
  decide

/-- C2: the cost-prediction vector places scope complexity first, then the
five scores (resource, risk, environmental, deviation, stakeholder), then
the four project-type indicators; the time-prediction vector places the
same five scores first and scope complexity sixth, before the indicators;
and whenever the complexity value differs from the resource score, the two
assembled vectors differ even though they contain the same field values. -/
theorem cost_time_vector_orders (r : CostTimeRecord) :
    costVector r =
      [r.Scope_Complexity_Numeric,
       r.Resource_Allocation_Score,
       r.Risk_Assessment_Score,
       r.Environmental_Impact_Score,
       r.Historical_Cost_Deviation_,
       r.Stakeholder_Priority_Score] ++ projectTypeEncoded r.Project_Type ∧
    timeVector r =
      [r.Resource_Allocation_Score,
       r.Risk_Assessment_Score,
       r.Environmental_Impact_Score,
       r.Historical_Cost_Deviation_,
       r.Stakeholder_Priority_Score,
       r.Scope_Complexity_Numeric] ++ projectTypeEncoded r.Project_Type ∧
    (r.Scope_Complexity_Numeric ≠ r.Resource_Allocation_Score →
      costVector r ≠ timeVector r) := by
  refine ⟨rfl, rfl, fun hne heq => hne ?_⟩
  simpa [costVector, timeVector] using congrArg (fun l => l.headI) heq

/-- A concrete record exercising `cost_time_vector_orders`: complexity 2
differs from resource score 7, so the cost and time vectors differ. -/
def ctRecord : CostTimeRecord :=
  { Project_Type := "Road"
    Scope_Complexity_Numeric := 2
    Resource_Allocation_Score := 7
    Risk_Assessment_Score := 6
    Environmental_Impact_Score := 5
    Historical_Cost_Deviation_ := 10
    Stakeholder_Priority_Score := 8 }

/-- Witness for C2 at the concrete record `ctRecord`. -/
theorem cost_time_vector_orders_witness :
    costVector ctRecord ≠ timeVector ctRecord :=
  (cost_time_vector_orders ctRecord).2.2 (by decide)

/-- C3: the Encoded Feature Vector built by each handler has length equal
to the target model's declared field count (12 for the feasibility model,
10 for the cost model, 10 for the time model), and among the four
project-type indicators exactly zero or one is 1, never more than one. -/
theorem vector_lengths_and_onehot (r : InputRecord) (c : CostTimeRecord) :
    (feasibilityVector r).length = FEATURE_NAMES.length ∧
    FEATURE_NAMES.length = 12 ∧
    (costVector c).length = COST_FEATURE_NAMES.length ∧
    COST_FEATURE_NAMES.length = 10 ∧
    (timeVector c).length = TIME_FEATURE_NAMES.length ∧
    TIME_FEATURE_NAMES.length = 10 ∧
    (∀ x ∈ projectTypeEncoded r.Project_Type, x = 0 ∨ x = 1) ∧
    (projectTypeEncoded r.Project_Type).count 1 ≤ 1 := by
  refine ⟨rfl, rfl, rfl, rfl, rfl, rfl, ?_, ?_⟩
  · intro x hx
    simp only [projectTypeEncoded, PROJECT_TYPES_ENCODED, List.map_cons,
      List.map_nil, List.mem_cons, List.not_mem_nil, or_false] at hx
    rcases hx with h | h | h | h <;> (rw [h]; split_ifs <;> simp)
  · by_cases h1 : ("Building" : String) = r.Project_Type <;>
    by_cases h2 : ("Power Plant" : String) = r.Project_Type <;>
    by_cases h3 : ("Road" : String) = r.Project_Type <;>
    by_cases h4 : ("Water Infra" : String) = r.Project_Type <;>
      simp_all +decide [projectTypeEncoded, PROJECT_TYPES_ENCODED] <;>
      first
      | exact absurd (h1.trans h2.symm) (by decide)
      | exact absurd (h1.trans h3.symm) (by decide)
      | exact absurd (h1.trans h4.symm) (by decide)
      | exact absurd (h2.trans h3.symm) (by decide)
      | exact absurd (h2.trans h4.symm) (by decide)
      | exact absurd (h3.trans h4.symm) (by decide)

/-- C4: for every Input Record whose project type is the reference
category "Bridge", all four project-type indicators are 0 in each of the
three model vectors (positions 8-11 of the feasibility vector, positions
6-9 of the cost and time vectors). -/
theorem bridge_all_zero_indicators (r : InputRecord) (c : CostTimeRecord)
    (hr : r.Project_Type = "Bridge") (hc : c.Project_Type = "Bridge") :
    (feasibilityVector r).drop 8 = [0, 0, 0, 0] ∧
    (costVector c).drop 6 = [0, 0, 0, 0] ∧
    (timeVector c).drop 6 = [0, 0, 0, 0] := by
  refine ⟨?_, ?_, ?_⟩ <;>
    simp [feasibilityVector, costVector, timeVector, projectTypeEncoded,
      PROJECT_TYPES_ENCODED, hr, hc]

/-- Witness for C4: the C1/C2 scenario records retyped to "Bridge". -/
theorem bridge_all_zero_indicators_witness :
    (feasibilityVector { roadRecord with Project_Type := "Bridge" }).drop 8 =
      [0, 0, 0, 0] ∧
    (costVector { ctRecord with Project_Type := "Bridge" }).drop 6 =
      [0, 0, 0, 0] ∧
    (timeVector { ctRecord with Project_Type := "Bridge" }).drop 6 =
      [0, 0, 0, 0] :=
  bridge_all_zero_indicators _ _ rfl rfl

/-- C5: for every project-type string not in the encoded set {Building,
Power Plant, Road, Water Infra}, the one-hot indicator block equals the
block produced for the reference category "Bridge" (all zeros), and the
full vectors for any fixed remaining fields coincide, for all three
models. -/
theorem unknown_type_aliases_reference (pt : String) (r : InputRecord)
    (c : CostTimeRecord) (h : pt ∉ PROJECT_TYPES_ENCODED) :
    projectTypeEncoded pt = projectTypeEncoded "Bridge" ∧
    feasibilityVector { r with Project_Type := pt } =
      feasibilityVector { r with Project_Type := "Bridge" } ∧
    costVector { c with Project_Type := pt } =
      costVector { c with Project_Type := "Bridge" } ∧
    timeVector { c with Project_Type := pt } =
      timeVector { c with Project_Type := "Bridge" } := by
  have henc : projectTypeEncoded pt = projectTypeEncoded "Bridge" := by
    simp only [PROJECT_TYPES_ENCODED, List.mem_cons, List.not_mem_nil,
      or_false, not_or] at h
    obtain ⟨h1, h2, h3, h4⟩ := h
    simp [projectTypeEncoded, PROJECT_TYPES_ENCODED,
      Ne.symm h1, Ne.symm h2, Ne.symm h3, Ne.symm h4]
  exact ⟨henc, by simp [feasibilityVector, henc],
    by simp [costVector, henc], by simp [timeVector, henc]⟩

/-- Witness for C5 with the unrecognized category "Tunnel". -/
theorem unknown_type_aliases_reference_witness :
    projectTypeEncoded "Tunnel" = projectTypeEncoded "Bridge" :=
  (unknown_type_aliases_reference "Tunnel" roadRecord ctRecord (by decide)).1

/-- The opaque pre-trained feasibility classifier artifact
(models/feasibility_model2.pkl), loaded at process start and never
mutated. `predict` yields the class index of the single input row;
`predict_proba` is the optional per-class probability interface: `none`
models an artifact without it, where the attribute access raises
`AttributeError`. `feature_importances_` backs the feature-importance
chart. -/
structure FeasModel where
  predict : List ℚ → ℤ
  predict_proba : Option (List ℚ → List ℚ)
  feature_importances_ : List ℚ

/-- An opaque pre-trained regressor artifact (models/cost_model.pkl or
models/time_model.pkl): `predict` yields the value for one input row. -/
structure RegModel where
  predict : List ℚ → ℚ

/-- app/model.py `predict_feasibility`: one row, the model's predicted
class index. The pandas DataFrame wrapping is one row with the
`FEATURE_NAMES` columns, embedded as the vector itself. -/
def predict_feasibility (m : FeasModel) (input_data : List ℚ) : ℤ :=
  m.predict input_data

/-- app/model.py `get_prediction_confidence`: the maximum of the model's
class probabilities for the row; if the model has no `predict_proba`
attribute (AttributeError), return 0.85. Python `max` on an empty
sequence raises ValueError, modelled as `Except.error`. -/
def get_prediction_confidence (m : FeasModel) (input_data : List ℚ) :
    Except String ℚ :=
  match m.predict_proba with
  | some f =>
      match f input_data with
      | [] => .error "ValueError: max() arg is an empty sequence"
      | p :: ps => .ok (ps.foldl max p)
  | none => .ok (85 / 100)

/-- app/model.py `predict_cost`: one row, the regressor's value. -/
def predict_cost (m : RegModel) (input_data : List ℚ) : ℚ :=
  m.predict input_data

/-- app/model.py `predict_time`: one row, the regressor's value. -/
def predict_time (m : RegModel) (input_data : List ℚ) : ℚ :=
  m.predict input_data

lemma foldl_max_bounds (l : List ℚ) (a : ℚ) (h0 : 0 ≤ a) (h1 : a ≤ 1)
    (hl : ∀ x ∈ l, 0 ≤ x ∧ x ≤ 1) :
    0 ≤ l.foldl max a ∧ l.foldl max a ≤ 1 := by
  induction l generalizing a with
  | nil => exact ⟨h0, h1⟩
  | cons x xs ih =>
      have hx := hl x (List.mem_cons_self x xs)
      exact ih (max a x) (le_max_of_le_left h0) (max_le h1 hx.2)
        (fun y hy => hl y (List.mem_cons_of_mem x hy))

/-- C6: whenever the probabilities the model reports for the row are a
(nonempty) list of values in [0,1], the confidence score returned by
`get_prediction_confidence` is in [0,1]; and when the underlying
predictor lacks probability support, the value returned is exactly 0.85,
as a successful result rather than a failure. -/
theorem confidence_in_unit_interval (m : FeasModel) (input_data : List ℚ)
    (hp : ∀ f, m.predict_proba = some f →
      f input_data ≠ [] ∧ ∀ x ∈ f input_data, 0 ≤ x ∧ x ≤ 1) :
    (∃ c, get_prediction_confidence m input_data = .ok c ∧ 0 ≤ c ∧ c ≤ 1) ∧
    (m.predict_proba = none →
      get_prediction_confidence m input_data = .ok (85 / 100)) := by
  constructor
  · match hf : m.predict_proba with
    | none =>
        exact ⟨85 / 100, by simp [get_prediction_confidence, hf], by norm_num,
          by norm_num⟩
    | some f =>
        obtain ⟨hne, hbounds⟩ := hp f hf
        match hout : f input_data with
        | [] => exact absurd hout hne
        | p :: ps =>
            have hmem := hout ▸ hbounds
            have hb := foldl_max_bounds ps p
              (hmem p (List.mem_cons_self p ps)).1
              (hmem p (List.mem_cons_self p ps)).2
              (fun y hy => hmem y (List.mem_cons_of_mem p hy))
            exact ⟨ps.foldl max p,
              by simp [get_prediction_confidence, hf, hout], hb.1, hb.2⟩
  · intro hf
    simp [get_prediction_confidence, hf]

/-- A concrete classifier artifact without probability support. -/
def noProbaModel : FeasModel :=
  { predict := fun _ => 1
    predict_proba := none
    feature_importances_ := [] }

/-- Witness for C6: a model without `predict_proba` yields exactly 0.85
on the C1 scenario vector, a value inside [0,1]. -/
theorem confidence_in_unit_interval_witness :
    (∃ c, get_prediction_confidence noProbaModel (feasibilityVector roadRecord) =
        .ok c ∧ 0 ≤ c ∧ c ≤ 1) ∧
    get_prediction_confidence noProbaModel (feasibilityVector roadRecord) =
      .ok (85 / 100) := by
  have h := confidence_in_unit_interval noProbaModel
    (feasibilityVector roadRecord) (fun f hf => by simp [noProbaModel] at hf)
  exact ⟨h.1, h.2 rfl⟩

/-- The fixed class-index-to-label table of the feasibility handler
(`label_map` in `predict`, app/main.py lines 98-102); a key outside the
table is a Python `KeyError`, modelled as `none`. -/
def label_map (k : ℤ) : Option String :=
  if k = 0 then some "Not Feasible"
  else if k = 1 then some "Feasible"
  else if k = 2 then some "Borderline"
  else none

/-- The label computation of the feasibility handler: look the predicted
class index up in `label_map`; a missing key raises an uncaught KeyError
(`Except.error`), so no label is rendered. -/
def predictHandlerLabel (m : FeasModel) (r : InputRecord) :
    Except String String :=
  match label_map (predict_feasibility m (feasibilityVector r)) with
  | some l => .ok l
  | none => .error "KeyError"

/-- C9: the class index returned by `predict_feasibility` is mapped
through the fixed three-entry table {0 ↦ "Not Feasible", 1 ↦ "Feasible",
2 ↦ "Borderline"}; for any predictor output outside {0, 1, 2} the lookup
fails (uncaught KeyError), so the request fails rather than rendering a
label. -/
theorem label_map_three_entries (m : FeasModel) (r : InputRecord) (k : ℤ)
    (hk : predict_feasibility m (feasibilityVector r) = k) :
    label_map 0 = some "Not Feasible" ∧
    label_map 1 = some "Feasible" ∧
    label_map 2 = some "Borderline" ∧
    (k ≠ 0 → k ≠ 1 → k ≠ 2 →
      label_map k = none ∧ predictHandlerLabel m r = .error "KeyError") := by
  refine ⟨rfl, rfl, rfl, fun h0 h1 h2 => ?_⟩
  have hnone : label_map k = none := by simp [label_map, h0, h1, h2]
  exact ⟨hnone, by simp [predictHandlerLabel, hk, hnone]⟩

/-- A concrete classifier artifact whose predicted class index is 5,
outside the label table. -/
def outOfRangeModel : FeasModel :=
  { predict := fun _ => 5
    predict_proba := none
    feature_importances_ := [] }

/-- Witness for C9: a predictor returning class 5 makes the feasibility
handler fail with a KeyError instead of rendering a label. -/
theorem label_map_three_entries_witness :
    label_map 5 = none ∧
    predictHandlerLabel outOfRangeModel roadRecord = .error "KeyError" :=
  (label_map_three_entries outOfRangeModel roadRecord 5 rfl).2.2.2
    (by decide) (by decide) (by decide)

/-- The module-scope state of app/model.py: the three predictors loaded
once by `joblib.load` at import time. -/
structure ServiceState where
  feasibility_model : FeasModel
  cost_model : RegModel
  time_model : RegModel

/-- One request into the Prediction Service: which route was posted and
its Input Record. -/
inductive Request where
  | feas (r : InputRecord)
  | cost (r : CostTimeRecord)
  | time (r : CostTimeRecord)

/-- The result a single request obtains from the Prediction Service
functions: class index plus confidence for feasibility, a value for cost
or time. -/
inductive ServiceOutput where
  | feasOut (cls : ℤ) (conf : Except String ℚ)
  | costOut (val : ℚ)
  | timeOut (val : ℚ)

/-- One call through the Prediction Service, threading the module-scope
state explicitly: each branch assembles the route's vector exactly as the
handler does and calls the app/model.py function. The state is returned
unchanged because no statement in app/model.py rebinds or mutates the
loaded models. -/
def serviceStep (st : ServiceState) : Request → ServiceOutput × ServiceState
  | .feas r =>
      (.feasOut (predict_feasibility st.feasibility_model (feasibilityVector r))
        (get_prediction_confidence st.feasibility_model (feasibilityVector r)),
       st)
  | .cost r => (.costOut (predict_cost st.cost_model (costVector r)), st)
  | .time r => (.timeOut (predict_time st.time_model (timeVector r)), st)

/-- A sequence of requests processed in order, each seeing the state the
previous call left behind. -/
def runService (st : ServiceState) : List Request → List ServiceOutput
  | [] => []
  | req :: rest =>
      let out := serviceStep st req
      out.1 :: runService out.2 rest

lemma serviceStep_state_eq (st : ServiceState) (req : Request) :
    (serviceStep st req).2 = st := by
  cases req <;> rfl

lemma runService_eq_map (st : ServiceState) (reqs : List Request) :
    runService st reqs = reqs.map (fun req => (serviceStep st req).1) := by
  induction reqs with
  | nil => rfl
  | cons req rest ih =>
      simp [runService, serviceStep_state_eq, ih]

/-- C7: repeated calls through the Prediction Service are deterministic:
each call leaves the loaded-model state unchanged, and any two positions
of a request sequence holding identical Input Records receive identical
results. -/
theorem service_deterministic (st : ServiceState) (reqs : List Request)
    (i j : ℕ) (h : reqs[i]? = reqs[j]?) :
    (∀ req, (serviceStep st req).2 = st) ∧
    (runService st reqs)[i]? = (runService st reqs)[j]? := by
  refine ⟨serviceStep_state_eq st, ?_⟩
  rw [runService_eq_map]
  simp [List.getElem?_map, h]

/-- Witness for C7: two identical feasibility requests in a row produce
the same output at positions 0 and 1. -/
theorem service_deterministic_witness :
    (runService
      { feasibility_model := noProbaModel
        cost_model := { predict := fun _ => 0 }
        time_model := { predict := fun _ => 0 } }
      [Request.feas roadRecord, Request.feas roadRecord])[0]? =
    (runService
      { feasibility_model := noProbaModel
        cost_model := { predict := fun _ => 0 }
        time_model := { predict := fun _ => 0 } }
      [Request.feas roadRecord, Request.feas roadRecord])[1]? :=
  (service_deterministic _ [Request.feas roadRecord, Request.feas roadRecord]
    0 1 rfl).2

/-- The data each chart renders, from app/visualize.py: the feature
importances with their names, the closed radar polygon, the gauge needle
position with the result label, and the distribution bars with the raw
values they are labelled with. -/
inductive Image where
  | featureImportance (importances : List ℚ) (names : List String)
  | radar (points : List ℚ)
  | gauge (needle : ℚ) (result : String)
  | distribution (bars : List ℚ) (values : List ℚ)

/-- One completed `plt.savefig`: the chart image written at a path. -/
structure Write where
  path : String
  img : Image

def featureImportancePath : String := "static/feature_importance.png"

def radarChartPath : String := "static/radar_chart.png"

def gaugeChartPath : String := "static/gauge_chart.png"

def distributionChartPath : String := "static/distribution_chart.png"

/-- The four fixed chart paths, in the order `generate_all_visualizations`
writes them. -/
def fourChartPaths : List String :=
  [featureImportancePath, radarChartPath, gaugeChartPath,
   distributionChartPath]

/-- A `plt.savefig` call against the external plotting backend: `oracle`
says whether rendering to the given path raises (matplotlib is outside
the repository, so its failures are an oracle); on success the write is
recorded, and visualize.py catches nothing, so an error propagates. -/
def trySave (oracle : String → Option String) (path : String)
    (img : Image) : Except String Write :=
  match oracle path with
  | some e => .error e
  | none => .ok ⟨path, img⟩

/-- app/visualize.py `generate_feature_importance`: renders the model's
`feature_importances_` against the feature names (the argsort inside is
presentation only) and saves to the fixed path. -/
def generate_feature_importance (oracle : String → Option String)
    (model : FeasModel) (feature_names : List String) : Except String Write :=
  trySave oracle featureImportancePath
    (.featureImportance model.feature_importances_ feature_names)

/-- `max_vals` of `generate_radar_chart` (app/visualize.py line 50). -/
def radarMaxVals : List ℚ := [1000000, 365, 10, 10, 10, 50, 10, 3]

/-- The radar normalization `[min(v / m, 1) for v, m in zip(input_data,
max_vals)]` (app/visualize.py line 51); `zip` truncates to the shorter
list as in Python. -/
def radarNorm (input_data : List ℚ) : List ℚ :=
  (input_data.zip radarMaxVals).map (fun vm => min (vm.1 / vm.2) 1)

/-- app/visualize.py `generate_radar_chart`: plots the normalized inputs
closed into a loop (`normalized += normalized[:1]`) and saves to the
fixed path; `feature_names` is accepted but unused, as in the source. -/
def generate_radar_chart (oracle : String → Option String)
    (input_data : List ℚ) (feature_names : List String) :
    Except String Write :=
  trySave oracle radarChartPath
    (.radar (radarNorm input_data ++ (radarNorm input_data).take 1))

/-- app/visualize.py `generate_gauge_chart`: the needle position is
`min(max(risk_score / 10, 0), 1)` (line 104) and the result label is
printed under the gauge; saved to the fixed path. -/
def generate_gauge_chart (oracle : String → Option String)
    (risk_score : ℚ) (result : String) : Except String Write :=
  trySave oracle gaugeChartPath
    (.gauge (min (max (risk_score / 10) 0) 1) result)

/-- `max_vals` of `generate_distribution_chart` (app/visualize.py
line 141). -/
def distMaxVals : List ℚ := [100000, 100, 10, 10, 10, 20, 10, 3]

/-- The distribution normalization `[min(v / m * 10, 10) for v, m in
zip(input_data, max_vals)]` (app/visualize.py line 142). -/
def distNorm (input_data : List ℚ) : List ℚ :=
  (input_data.zip distMaxVals).map (fun vm => min (vm.1 / vm.2 * 10) 10)

/-- app/visualize.py `generate_distribution_chart`: bars of the
normalized scores labelled with the raw values; saved to the fixed
path. -/
def generate_distribution_chart (oracle : String → Option String)
    (input_data : List ℚ) (feature_names : List String) :
    Except String Write :=
  trySave oracle distributionChartPath
    (.distribution (distNorm input_data) input_data)

/-- app/visualize.py `generate_all_visualizations`: the four generators
in source order, the gauge fed `input_data[3]` (the Risk Assessment
Score; every call site passes the 12-element feasibility vector, so
`getD 3 0` coincides with Python indexing); the first uncaught rendering
error aborts the sequence. -/
def generate_all_visualizations (oracle : String → Option String)
    (model : FeasModel) (feature_names : List String) (input_data : List ℚ)
    (result : String) : Except String (List Write) := do
  let w1 ← generate_feature_importance oracle model feature_names
  let w2 ← generate_radar_chart oracle input_data feature_names
  let w3 ← generate_gauge_chart oracle (input_data.getD 3 0) result
  let w4 ← generate_distribution_chart oracle input_data feature_names
  pure [w1, w2, w3, w4]

/-- The file system visible to the web layer: chart path to current
image. -/
def applyWrites (fs : String → Option Image) (ws : List Write) :
    String → Option Image :=
  ws.foldl (fun f w => fun p => if p = w.path then some w.img else f p) fs

lemma generate_all_ok_iff (oracle : String → Option String) (m : FeasModel)
    (names : List String) (input_data : List ℚ) (result : String)
    (ws : List Write) :
    generate_all_visualizations oracle m names input_data result = .ok ws ↔
      oracle featureImportancePath = none ∧
      oracle radarChartPath = none ∧
      oracle gaugeChartPath = none ∧
      oracle distributionChartPath = none ∧
      ws = [⟨featureImportancePath,
              .featureImportance m.feature_importances_ names⟩,
            ⟨radarChartPath,
              .radar (radarNorm input_data ++ (radarNorm input_data).take 1)⟩,
            ⟨gaugeChartPath,
              .gauge (min (max (input_data.getD 3 0 / 10) 0) 1) result⟩,
            ⟨distributionChartPath,
              .distribution (distNorm input_data) input_data⟩] := by
  cases h1 : oracle featureImportancePath <;>
  cases h2 : oracle radarChartPath <;>
  cases h3 : oracle gaugeChartPath <;>
  cases h4 : oracle distributionChartPath <;>
    simp [generate_all_visualizations, generate_feature_importance,
      generate_radar_chart, generate_gauge_chart,
      generate_distribution_chart, trySave, h1, h2, h3, h4, eq_comm,
      Bind.bind, Except.bind, Pure.pure, Except.pure]

lemma generate_all_error_oracle (oracle : String → Option String)
    (m : FeasModel) (names : List String) (input_data : List ℚ)
    (result : String) (e : String)
    (h : generate_all_visualizations oracle m names input_data result =
      .error e) :
    ∃ p ∈ fourChartPaths, oracle p = some e := by
  cases h1 : oracle featureImportancePath <;>
  cases h2 : oracle radarChartPath <;>
  cases h3 : oracle gaugeChartPath <;>
  cases h4 : oracle distributionChartPath <;>
    simp only [generate_all_visualizations, generate_feature_importance,
      generate_radar_chart, generate_gauge_chart,
      generate_distribution_chart, trySave, h1, h2, h3, h4,
      Bind.bind, Except.bind, Pure.pure, Except.pure] at h <;>
  first
  | exact Except.noConfusion h
  | (simp only [Except.error.injEq] at h
     subst h
     first
     | exact ⟨featureImportancePath, by simp [fourChartPaths], h1⟩
     | exact ⟨radarChartPath, by simp [fourChartPaths], h2⟩
     | exact ⟨gaugeChartPath, by simp [fourChartPaths], h3⟩
     | exact ⟨distributionChartPath, by simp [fourChartPaths], h4⟩)

/-- C8: every successful call to `generate_all_visualizations` writes
exactly the four chart files static/feature_importance.png,
static/radar_chart.png, static/gauge_chart.png,
static/distribution_chart.png, in that order; every other path of the
file system is untouched; on the four paths the new content is
independent of what was there before (overwrite) and is present
afterwards; and any rendering error propagates uncaught: an error result
always comes from a failed save at one of the four paths. -/
theorem visualizations_write_exactly_four (oracle : String → Option String)
    (m : FeasModel) (names : List String) (input_data : List ℚ)
    (result : String) (fs fs2 : String → Option Image) :
    ((∀ p ∈ fourChartPaths, oracle p = none) →
      ∃ ws, generate_all_visualizations oracle m names input_data result =
          .ok ws ∧
        ws.map Write.path = fourChartPaths ∧
        (∀ p, p ∉ fourChartPaths → applyWrites fs ws p = fs p) ∧
        (∀ p ∈ fourChartPaths, (applyWrites fs ws p).isSome ∧
          applyWrites fs ws p = applyWrites fs2 ws p)) ∧
    (∀ e, generate_all_visualizations oracle m names input_data result =
        .error e → ∃ p ∈ fourChartPaths, oracle p = some e) := by
  constructor
  · intro hok
    refine ⟨_, (generate_all_ok_iff oracle m names input_data result _).mpr
      ⟨hok _ (by simp [fourChartPaths]), hok _ (by simp [fourChartPaths]),
       hok _ (by simp [fourChartPaths]), hok _ (by simp [fourChartPaths]),
       rfl⟩, rfl, ?_, ?_⟩
    · intro p hp
      simp only [fourChartPaths, List.mem_cons, List.not_mem_nil, or_false,
        not_or] at hp
      simp [applyWrites, hp.1, hp.2.1, hp.2.2.1, hp.2.2.2]
    · intro p hp
      simp only [fourChartPaths, List.mem_cons, List.not_mem_nil,
        or_false] at hp
      rcases hp with rfl | rfl | rfl | rfl <;>
        refine ⟨?_, ?_⟩ <;>
        simp +decide [applyWrites, featureImportancePath, radarChartPath,
          gaugeChartPath, distributionChartPath]
  · exact generate_all_error_oracle oracle m names input_data result

/-- A file system holding a prior version of every chart. -/
def priorFS : String → Option Image := fun _ => some (.gauge 0 "stale")

/-- Witness for C8: with a rendering backend that never fails, the call
on the C1 scenario vector writes the four chart paths, leaves any other
path of the empty file system untouched, and its content on the four
paths ignores the prior file system. -/
theorem visualizations_write_exactly_four_witness :
    ∃ ws, generate_all_visualizations (fun _ => none) noProbaModel
        FEATURE_NAMES (feasibilityVector roadRecord) "Feasible" = .ok ws ∧
      ws.map Write.path = fourChartPaths ∧
      (∀ p, p ∉ fourChartPaths →
        applyWrites (fun _ => none) ws p = (fun _ => none) p) ∧
      (∀ p ∈ fourChartPaths, (applyWrites (fun _ => none) ws p).isSome ∧
        applyWrites (fun _ => none) ws p = applyWrites priorFS ws p) :=
  (visualizations_write_exactly_four (fun _ => none) noProbaModel
    FEATURE_NAMES (feasibilityVector roadRecord) "Feasible"
    (fun _ => none) priorFS).1 (fun _ _ => rfl)

/-- C10: the gauge chart is driven solely by the fourth element (index 3,
the Risk Assessment Score) of the input vector together with the result
label: its needle is that risk score divided by 10 and clamped to [0,1],
and two calls agreeing on index 3 and the label produce identical gauge
writes whatever their other fields, models or names. -/
theorem gauge_chart_risk_only (oracle : String → Option String)
    (m m2 : FeasModel) (names names2 : List String)
    (input_data input_data2 : List ℚ) (result : String)
    (ws ws2 : List Write)
    (h3 : input_data.getD 3 0 = input_data2.getD 3 0)
    (hw : generate_all_visualizations oracle m names input_data result =
      .ok ws)
    (hw2 : generate_all_visualizations oracle m2 names2 input_data2 result =
      .ok ws2) :
    ws[2]? = some ⟨gaugeChartPath,
      .gauge (min (max (input_data.getD 3 0 / 10) 0) 1) result⟩ ∧
    ws[2]? = ws2[2]? := by
  obtain ⟨-, -, -, -, hws⟩ :=
    (generate_all_ok_iff oracle m names input_data result ws).mp hw
  obtain ⟨-, -, -, -, hws2⟩ :=
    (generate_all_ok_iff oracle m2 names2 input_data2 result ws2).mp hw2
  subst hws hws2
  exact ⟨rfl, by rw [List.getElem?_cons_succ, List.getElem?_cons_succ,
    List.getElem?_cons_zero, List.getElem?_cons_succ,
    List.getElem?_cons_succ, List.getElem?_cons_zero, h3]⟩

/-- Witness for C10: two calls whose inputs share only the risk score 6
(and the label) produce the same gauge write, with needle 6/10. -/
theorem gauge_chart_risk_only_witness :
    ∃ ws ws2 : List Write,
      generate_all_visualizations (fun _ => none) noProbaModel FEATURE_NAMES
        (feasibilityVector roadRecord) "Feasible" = .ok ws ∧
      generate_all_visualizations (fun _ => none) outOfRangeModel []
        (feasibilityVector { roadRecord with Estimated_Cost_USD := 1 })
        "Feasible" = .ok ws2 ∧
      ws[2]? = some ⟨gaugeChartPath,
        .gauge (min (max ((feasibilityVector roadRecord).getD 3 0 / 10) 0) 1)
          "Feasible"⟩ ∧
      ws[2]? = ws2[2]? := by
  refine ⟨_, _, rfl, rfl, ?_, ?_⟩
  · exact (gauge_chart_risk_only (fun _ => none) noProbaModel outOfRangeModel
      FEATURE_NAMES [] (feasibilityVector roadRecord)
      (feasibilityVector { roadRecord with Estimated_Cost_USD := 1 })
      "Feasible" _ _ rfl rfl rfl).1
  · exact (gauge_chart_risk_only (fun _ => none) noProbaModel outOfRangeModel
      FEATURE_NAMES [] (feasibilityVector roadRecord)
      (feasibilityVector { roadRecord with Estimated_Cost_USD := 1 })
      "Feasible" _ _ rfl rfl rfl).2

end CollegeML
